import Mathlib

/-!
Shallow embedding of the obsidian-hemingway-mode plugin.

The repository contains two snapshots of the plugin source:
* `src/main.ts` — the variant with the top-line appearance settings; its
  `buildKeyMapScope` registers the void keys and the `Meta+Z` chord.
* `src/unnamed/part_001` — the variant with the status bar, the
  `keymapInstalled` flag, the focus-polling interval and the `Meta+A` chord.

Pure key-map construction is embedded once (`registerVoidKey`, shared by both
variants exactly as the duplicated loop body is shared in the sources), and the
two `buildKeyMapScope` functions live in namespaces `Main` and `P1`.  The
stateful plugin behaviour (install/uninstall, updateStatus, setupView,
restoreView, the polling tick, the click listener) follows
`src/unnamed/part_001` and is embedded as explicit state passing over
`PluginState`.
-/

set_option autoImplicit false
set_option maxRecDepth 10000

namespace HemingwayMode

/-- Obsidian hotkey modifiers, as used in the `register` calls of
`buildKeyMapScope`. -/
inductive Modifier
  | Meta
  | Alt
  | Ctrl
  | Shift
  | Mod
deriving DecidableEq, Repr

/-- The only key handler the plugin ever registers is `nop = () => false`. -/
inductive Handler
  | nop
deriving DecidableEq, Repr

/-- Running a handler yields the boolean it returns; `nop` returns `false`. -/
def Handler.run : Handler → Bool
  | .nop => false

/-- A keymap scope: the ordered list of `(modifiers, key, handler)` bindings
registered on it.  (The parent scope passed to `new Scope(this.app.scope)` is
not part of the bindings the plugin registers and is not modelled.) -/
structure Scope where
  bindings : List (List Modifier × String × Handler)
deriving DecidableEq, Repr

/-- `scope.register(modifiers, key, handler)` appends a binding. -/
def Scope.register (s : Scope) (mods : List Modifier) (key : String) (h : Handler) : Scope :=
  { s with bindings := s.bindings ++ [(mods, key, h)] }

/-- The fourteen keys of the `voidKeys` literal common to both sources
(before the conditional `Backspace` push). -/
def voidKeys14 : List String :=
  ["ArrowLeft", "ArrowRight", "ArrowUp", "ArrowDown", "End", "Home",
   "PageUp", "PageDown", "Delete", "Clear", "Cut", "EraseEof", "Redo", "Undo"]

/-- The eleven modifier sets the loop body registers each void key under,
in source order (including the literal duplicate `["Shift", "Shift"]`). -/
def modifierSets11 : List (List Modifier) :=
  [[], [.Meta], [.Alt], [.Ctrl], [.Shift], [.Mod],
   [.Meta, .Shift], [.Alt, .Shift], [.Ctrl, .Shift], [.Shift, .Shift], [.Mod, .Shift]]

/-- The body of the `for (const key of voidKeys)` loop: the eleven
`this.keyMapScope.register(...)` calls, in source order. -/
def registerVoidKey (sc : Scope) (key : String) : Scope :=
  ((((((((((sc.register [] key .nop).register
    [.Meta] key .nop).register
    [.Alt] key .nop).register
    [.Ctrl] key .nop).register
    [.Shift] key .nop).register
    [.Mod] key .nop).register
    [.Meta, .Shift] key .nop).register
    [.Alt, .Shift] key .nop).register
    [.Ctrl, .Shift] key .nop).register
    [.Shift, .Shift] key .nop).register
    [.Mod, .Shift] key .nop

namespace Main

/-- `buildKeyMapScope(allowBackspace)` from `src/main.ts` (lines 78-117):
fresh scope, void keys (plus `Backspace` unless allowed) each registered under
the eleven modifier sets, then `register(["Meta"], "Z", nop)`. -/
def buildKeyMapScope (allowBackspace : Bool) : Scope :=
  let voidKeys := if !allowBackspace then voidKeys14 ++ ["Backspace"] else voidKeys14
  let sc := voidKeys.foldl registerVoidKey { bindings := [] }
  sc.register [.Meta] "Z" .nop

end Main

namespace P1

/-- `buildKeyMapScope(allowBackspace)` from `src/unnamed/part_001`
(lines 108-148): as in `main.ts`, then additionally
`register(["Meta"], "A", nop)` for select-all. -/
def buildKeyMapScope (allowBackspace : Bool) : Scope :=
  let voidKeys := if !allowBackspace then voidKeys14 ++ ["Backspace"] else voidKeys14
  let sc := voidKeys.foldl registerVoidKey { bindings := [] }
  (sc.register [.Meta] "Z" .nop).register [.Meta] "A" .nop

end P1

/-- The plugin settings record of `src/unnamed/part_001` (lines 3-9). -/
structure Settings where
  enabled : Bool
  allowBackspace : Bool
  showToggleNotice : Bool
  showStatusBar : Bool
  statusBarText : String
deriving DecidableEq, Repr

/-- `DEFAULT_SETTINGS` (lines 13-19). -/
def DEFAULT_SETTINGS : Settings :=
  { enabled := false
    allowBackspace := false
    showToggleNotice := true
    showStatusBar := true
    statusBarText := "Hemingway" }

/-- Identifier of the plugin's `keyMapScope` on the host keymap scope stack
(other scopes on the stack are any other numbers). -/
def hemingwayScopeId : Nat := 0

/-- Cursor position: `(line, ch)`. -/
abbrev Pos := Nat × Nat

/-- The observable state the `src/unnamed/part_001` plugin methods act on:
the plugin's own fields (`settings`, `keymapInstalled`), the host keymap
scope stack, the status-bar element's text, the active markdown view (if any)
with its editor focus, document line lengths, cursor, content-element class
and attached click listeners, and the notices shown so far. -/
structure PluginState where
  settings : Settings
  keymapInstalled : Bool
  scopeStack : List Nat
  statusBarText : String
  viewActive : Bool
  editorFocused : Bool
  docLines : List Nat
  cursor : Pos
  viewHasClass : Bool
  clickListeners : Nat
  notices : List String
deriving DecidableEq, Repr

/-- `installHemingwayKeymap` (lines 174-178): return if the flag is set,
otherwise `this.app.keymap.pushScope(this.keyMapScope)` and set the flag. -/
def installHemingwayKeymap (st : PluginState) : PluginState :=
  if st.keymapInstalled then st
  else { st with scopeStack := st.scopeStack ++ [hemingwayScopeId], keymapInstalled := true }

/-- `uninstallHemingwayKeymap` (lines 180-184): return if the flag is clear,
otherwise `this.app.keymap.popScope(this.keyMapScope)` (the host removes that
scope from the stack) and clear the flag. -/
def uninstallHemingwayKeymap (st : PluginState) : PluginState :=
  if st.keymapInstalled then
    { st with scopeStack := st.scopeStack.erase hemingwayScopeId, keymapInstalled := false }
  else st

/-- Modelled from the spec: the host editor's `setCursor` is not part of this
repository.  The spec says the view decorator "pins the edit cursor to the
document's end"; the host clamps an out-of-range position — a line index past
the last line maps to the end of the last line, and a `ch` past a line's
length maps to that line's length.  `lineLengths` is the document as the list
of its line lengths. -/
def clipPos (lineLengths : List Nat) (p : Pos) : Pos :=
  if lineLengths.length ≤ p.1 then
    (lineLengths.length - 1, lineLengths.getLastD 0)
  else
    (p.1, min p.2 (lineLengths.getD p.1 0))

/-- The document's end position: after the last character of the last line. -/
def docEndPos (lineLengths : List Nat) : Pos :=
  (lineLengths.length - 1, lineLengths.getLastD 0)

/-- `setupView` (lines 186-193): if a markdown view is active, move the
cursor via `editor.setCursor({line: 99999999, ch: 0})`, add the `hemingway`
class to the content element, and attach a click listener
(`addEventListener("click", this.mouseEventListener.bind(this))`). -/
def setupView (st : PluginState) : PluginState :=
  if st.viewActive then
    { st with
      cursor := clipPos st.docLines (99999999, 0)
      viewHasClass := true
      clickListeners := st.clickListeners + 1 }
  else st

/-- `restoreView` (lines 195-201): if a markdown view is active, remove the
`hemingway` class.  (`removeEventListener("click", this.mouseEventListener.bind(this))`
passes a freshly bound function, which is never the listener that was added,
so it removes nothing.) -/
def restoreView (st : PluginState) : PluginState :=
  if st.viewActive then { st with viewHasClass := false } else st

/-- `mouseEventListener` (lines 203-206): focus the active markdown view's
editor, if there is one. -/
def mouseEventListener (st : PluginState) : PluginState :=
  if st.viewActive then { st with editorFocused := true } else st

/-- Line 159 of `updateStatus`: `this.statusBar.setText(...)`. -/
def setStatusBarText (st : PluginState) : PluginState :=
  { st with
    statusBarText :=
      if st.settings.showStatusBar && st.settings.enabled then st.settings.statusBarText
      else "" }

/-- The message of the toggle notice (line 170). -/
def noticeText (enabled : Bool) : String :=
  "Hemingway mode " ++ (if enabled then "active" else "inactive")

/-- Lines 169-171 of `updateStatus`: show the notice when
`showToggleNotice && !quiet`. -/
def maybeNotice (quiet : Bool) (st : PluginState) : PluginState :=
  if st.settings.showToggleNotice && !quiet then
    { st with notices := st.notices ++ [noticeText st.settings.enabled] }
  else st

/-- `updateStatus(quiet)` (lines 150-172): with no active markdown view,
uninstall the keymap, restore the view and return early; otherwise set the
status-bar text, install+setup when enabled / uninstall+restore when
disabled, then maybe show the notice. -/
def updateStatus (quiet : Bool) (st : PluginState) : PluginState :=
  if !st.viewActive then
    restoreView (uninstallHemingwayKeymap st)
  else
    let st1 := setStatusBarText st
    maybeNotice quiet
      (if st1.settings.enabled then setupView (installHemingwayKeymap st1)
       else restoreView (uninstallHemingwayKeymap st1))

/-- One tick of the 500 ms interval registered in `onload` (lines 71-82): if
a markdown view is active and the mode is enabled, install the keymap when
the editor has focus and uninstall it when it does not; otherwise do
nothing. -/
def tick (st : PluginState) : PluginState :=
  if st.viewActive && st.settings.enabled then
    if st.editorFocused then installHemingwayKeymap st else uninstallHemingwayKeymap st
  else st

/-- Apply a sequence of keymap operations (`true` = install, `false` =
uninstall), as in any interleaving of the lifecycle callbacks. -/
def applyKeymapOps : List Bool → PluginState → PluginState
  | [], st => st
  | op :: ops, st =>
      applyKeymapOps ops
        (if op then installHemingwayKeymap st else uninstallHemingwayKeymap st)

/-- The keymap-stack invariant: the `keymapInstalled` flag is set exactly when
the plugin's scope is on the host stack, and the scope is never on the stack
more than once. -/
def ScopeInv (st : PluginState) : Prop :=
  (st.keymapInstalled = true ↔ hemingwayScopeId ∈ st.scopeStack) ∧
  st.scopeStack.count hemingwayScopeId ≤ 1

instance (st : PluginState) : Decidable (ScopeInv st) := by
  unfold ScopeInv
  infer_instance

/-- A concrete plugin state used by the witnesses. -/
def sampleState : PluginState :=
  { settings := DEFAULT_SETTINGS
    keymapInstalled := false
    scopeStack := [7]
    statusBarText := ""
    viewActive := true
    editorFocused := true
    docLines := [3, 5]
    cursor := (0, 0)
    viewHasClass := false
    clickListeners := 0
    notices := [] }

/-- The plugin settings record of `src/main.ts` (lines 13-20). -/
structure MainSettings where
  enabled : Bool
  allowBackspace : Bool
  showToggleNotice : Bool
  showTopLineWhenActive : Bool
  topLineColor : String
  topLineWidth : Nat
deriving DecidableEq, Repr

/-- The observable state the `src/main.ts` plugin methods act on.  Unlike the
`part_001` snapshot there is no `keymapInstalled` flag and no status bar;
instead `updateStatus` reassigns `this.keyMapScope` to a *fresh* `Scope`
instance on every call, so scope *identity* matters: `keyMapScope` is the id
of the current instance, `nextScopeId` the supply for `new Scope(...)`, and
`scopeStack` holds the ids of pushed instances.  The bindings registered on
every instance are `Main.buildKeyMapScope settings.allowBackspace` (embedded
above); `cssColor`/`cssWidth` are the view's two `--hemingway-*` CSS
variables set by `updateStatus`. -/
structure MainState where
  settings : MainSettings
  keyMapScope : Nat
  nextScopeId : Nat
  scopeStack : List Nat
  viewActive : Bool
  docLines : List Nat
  cursor : Pos
  viewHasClass : Bool
  clickListeners : Nat
  cssColor : String
  cssWidth : String
  notices : List String
deriving DecidableEq, Repr

namespace Main

/-- `DEFAULT_SETTINGS` of `src/main.ts` (lines 25-32). -/
def DEFAULT_SETTINGS : MainSettings :=
  { enabled := false
    allowBackspace := false
    showToggleNotice := true
    showTopLineWhenActive := true
    topLineColor := "#cc0000"
    topLineWidth := 3 }

/-- The stateful effect of `buildKeyMapScope` (line 79):
`this.keyMapScope = new Scope(this.app.scope)` allocates a fresh scope
instance and makes it the current one. -/
def buildScope (st : MainState) : MainState :=
  { st with keyMapScope := st.nextScopeId, nextScopeId := st.nextScopeId + 1 }

/-- `installHemingwayKeymap` of `src/main.ts` (lines 138-140): an
unconditional `pushScope(this.keyMapScope)` — no flag guard. -/
def installHemingwayKeymap (st : MainState) : MainState :=
  { st with scopeStack := st.scopeStack ++ [st.keyMapScope] }

/-- `uninstallHemingwayKeymap` of `src/main.ts` (lines 142-144): an
unconditional `popScope(this.keyMapScope)` — the host removes that specific
instance from the stack if it is there. -/
def uninstallHemingwayKeymap (st : MainState) : MainState :=
  { st with scopeStack := st.scopeStack.erase st.keyMapScope }

/-- Lines 123-124 of `updateStatus`: set the two top-line CSS variables on
the active view's content element. -/
def setCssProps (st : MainState) : MainState :=
  if st.viewActive then
    { st with
      cssColor := st.settings.topLineColor
      cssWidth := toString st.settings.topLineWidth ++ "px" }
  else st

/-- `setupView` of `src/main.ts` (lines 146-156): cursor to
`{line: 99999999, ch: 0}`, `removeClass` then `addClass` only when
`showTopLineWhenActive`, and attach a click listener. -/
def setupView (st : MainState) : MainState :=
  if st.viewActive then
    { st with
      cursor := clipPos st.docLines (99999999, 0)
      viewHasClass := st.settings.showTopLineWhenActive
      clickListeners := st.clickListeners + 1 }
  else st

/-- `restoreView` of `src/main.ts` (lines 158-164): remove the class (the
`removeEventListener` call passes a freshly bound function and removes
nothing). -/
def restoreView (st : MainState) : MainState :=
  if st.viewActive then { st with viewHasClass := false } else st

/-- Lines 133-135 of `updateStatus`: the toggle notice. -/
def maybeNotice (quiet : Bool) (st : MainState) : MainState :=
  if st.settings.showToggleNotice && !quiet then
    { st with notices := st.notices ++ [noticeText st.settings.enabled] }
  else st

/-- `updateStatus(quiet)` of `src/main.ts` (lines 119-136): rebuild the
key-map scope (a fresh instance), set the CSS variables, then push+setup
when enabled / pop+restore when disabled, then maybe show the notice.  There
is no early return for a missing view and no `keymapInstalled` guard. -/
def updateStatus (quiet : Bool) (st : MainState) : MainState :=
  let st1 := setCssProps (buildScope st)
  maybeNotice quiet
    (if st1.settings.enabled then setupView (installHemingwayKeymap st1)
     else restoreView (uninstallHemingwayKeymap st1))

end Main

/-- The `src/main.ts` plugin state right after `onload`: default settings,
`buildKeyMapScope` has allocated instance 0, nothing pushed, a markdown view
active with a two-line document. -/
def mInit : MainState :=
  { settings := Main.DEFAULT_SETTINGS
    keyMapScope := 0
    nextScopeId := 1
    scopeStack := []
    viewActive := true
    docLines := [3, 5]
    cursor := (0, 0)
    viewHasClass := false
    clickListeners := 0
    cssColor := ""
    cssWidth := ""
    notices := [] }

/-- `mInit` after the toggle command enables the mode and runs
`updateStatus()`: the fresh instance 1 is built and pushed. -/
def mEnabledOnce : MainState :=
  Main.updateStatus false { mInit with settings := { mInit.settings with enabled := true } }

/-- `mEnabledOnce` after the toggle command disables the mode and runs
`updateStatus()` again: instance 2 is built and `popScope` is given that
never-pushed instance. -/
def mThenDisabled : MainState :=
  Main.updateStatus false
    { mEnabledOnce with settings := { mEnabledOnce.settings with enabled := false } }

/-! Helper lemmas: which fields each operation can touch. -/

@[simp] theorem installHemingwayKeymap_settings (st : PluginState) :
    (installHemingwayKeymap st).settings = st.settings := by
  unfold installHemingwayKeymap; split <;> rfl

@[simp] theorem installHemingwayKeymap_viewActive (st : PluginState) :
    (installHemingwayKeymap st).viewActive = st.viewActive := by
  unfold installHemingwayKeymap; split <;> rfl

@[simp] theorem installHemingwayKeymap_statusBarText (st : PluginState) :
    (installHemingwayKeymap st).statusBarText = st.statusBarText := by
  unfold installHemingwayKeymap; split <;> rfl

@[simp] theorem installHemingwayKeymap_notices (st : PluginState) :
    (installHemingwayKeymap st).notices = st.notices := by
  unfold installHemingwayKeymap; split <;> rfl

@[simp] theorem installHemingwayKeymap_viewHasClass (st : PluginState) :
    (installHemingwayKeymap st).viewHasClass = st.viewHasClass := by
  unfold installHemingwayKeymap; split <;> rfl

@[simp] theorem installHemingwayKeymap_clickListeners (st : PluginState) :
    (installHemingwayKeymap st).clickListeners = st.clickListeners := by
  unfold installHemingwayKeymap; split <;> rfl

@[simp] theorem uninstallHemingwayKeymap_settings (st : PluginState) :
    (uninstallHemingwayKeymap st).settings = st.settings := by
  unfold uninstallHemingwayKeymap; split <;> rfl

@[simp] theorem uninstallHemingwayKeymap_viewActive (st : PluginState) :
    (uninstallHemingwayKeymap st).viewActive = st.viewActive := by
  unfold uninstallHemingwayKeymap; split <;> rfl

@[simp] theorem uninstallHemingwayKeymap_statusBarText (st : PluginState) :
    (uninstallHemingwayKeymap st).statusBarText = st.statusBarText := by
  unfold uninstallHemingwayKeymap; split <;> rfl

@[simp] theorem uninstallHemingwayKeymap_notices (st : PluginState) :
    (uninstallHemingwayKeymap st).notices = st.notices := by
  unfold uninstallHemingwayKeymap; split <;> rfl

@[simp] theorem uninstallHemingwayKeymap_viewHasClass (st : PluginState) :
    (uninstallHemingwayKeymap st).viewHasClass = st.viewHasClass := by
  unfold uninstallHemingwayKeymap; split <;> rfl

@[simp] theorem setStatusBarText_settings (st : PluginState) :
    (setStatusBarText st).settings = st.settings := rfl

@[simp] theorem setStatusBarText_scopeStack (st : PluginState) :
    (setStatusBarText st).scopeStack = st.scopeStack := rfl

@[simp] theorem setStatusBarText_keymapInstalled (st : PluginState) :
    (setStatusBarText st).keymapInstalled = st.keymapInstalled := rfl

@[simp] theorem setStatusBarText_viewActive (st : PluginState) :
    (setStatusBarText st).viewActive = st.viewActive := rfl

@[simp] theorem setupView_scopeStack (st : PluginState) :
    (setupView st).scopeStack = st.scopeStack := by
  unfold setupView; split <;> rfl

@[simp] theorem setupView_keymapInstalled (st : PluginState) :
    (setupView st).keymapInstalled = st.keymapInstalled := by
  unfold setupView; split <;> rfl

@[simp] theorem setupView_settings (st : PluginState) :
    (setupView st).settings = st.settings := by
  unfold setupView; split <;> rfl

@[simp] theorem setupView_statusBarText (st : PluginState) :
    (setupView st).statusBarText = st.statusBarText := by
  unfold setupView; split <;> rfl

@[simp] theorem restoreView_scopeStack (st : PluginState) :
    (restoreView st).scopeStack = st.scopeStack := by
  unfold restoreView; split <;> rfl

@[simp] theorem restoreView_keymapInstalled (st : PluginState) :
    (restoreView st).keymapInstalled = st.keymapInstalled := by
  unfold restoreView; split <;> rfl

@[simp] theorem restoreView_settings (st : PluginState) :
    (restoreView st).settings = st.settings := by
  unfold restoreView; split <;> rfl

@[simp] theorem restoreView_statusBarText (st : PluginState) :
    (restoreView st).statusBarText = st.statusBarText := by
  unfold restoreView; split <;> rfl

@[simp] theorem restoreView_notices (st : PluginState) :
    (restoreView st).notices = st.notices := by
  unfold restoreView; split <;> rfl

@[simp] theorem maybeNotice_scopeStack (q : Bool) (st : PluginState) :
    (maybeNotice q st).scopeStack = st.scopeStack := by
  unfold maybeNotice; split <;> rfl

@[simp] theorem maybeNotice_keymapInstalled (q : Bool) (st : PluginState) :
    (maybeNotice q st).keymapInstalled = st.keymapInstalled := by
  unfold maybeNotice; split <;> rfl

@[simp] theorem maybeNotice_settings (q : Bool) (st : PluginState) :
    (maybeNotice q st).settings = st.settings := by
  unfold maybeNotice; split <;> rfl

@[simp] theorem maybeNotice_statusBarText (q : Bool) (st : PluginState) :
    (maybeNotice q st).statusBarText = st.statusBarText := by
  unfold maybeNotice; split <;> rfl

@[simp] theorem maybeNotice_viewHasClass (q : Bool) (st : PluginState) :
    (maybeNotice q st).viewHasClass = st.viewHasClass := by
  unfold maybeNotice; split <;> rfl

/-! Helper lemmas: the keymap-stack invariant. -/

theorem not_mem_of_flag_false (st : PluginState) (h : ScopeInv st)
    (hi : st.keymapInstalled = false) : hemingwayScopeId ∉ st.scopeStack := by
  intro hmem
  have := h.1.mpr hmem
  rw [hi] at this
  exact Bool.false_ne_true this

theorem scopeInv_install (st : PluginState) (h : ScopeInv st) :
    ScopeInv (installHemingwayKeymap st) := by
  unfold installHemingwayKeymap
  cases hi : st.keymapInstalled
  · have hnm := not_mem_of_flag_false st h hi
    have hc : st.scopeStack.count hemingwayScopeId = 0 := List.count_eq_zero.mpr hnm
    unfold ScopeInv
    simp [List.count_append, hc]
  · simpa using h

theorem scopeInv_uninstall (st : PluginState) (h : ScopeInv st) :
    ScopeInv (uninstallHemingwayKeymap st) := by
  unfold uninstallHemingwayKeymap
  cases hi : st.keymapInstalled
  · simpa using h
  · have hc : (st.scopeStack.erase hemingwayScopeId).count hemingwayScopeId = 0 := by
      have := List.count_erase_self hemingwayScopeId st.scopeStack
      have h2 := h.2
      omega
    have hnm : hemingwayScopeId ∉ st.scopeStack.erase hemingwayScopeId :=
      List.count_eq_zero.mp hc
    unfold ScopeInv
    simp [hnm, hc]

theorem mem_install (st : PluginState) (h : ScopeInv st) :
    hemingwayScopeId ∈ (installHemingwayKeymap st).scopeStack := by
  unfold installHemingwayKeymap
  cases hi : st.keymapInstalled
  · simp
  · simpa using h.1.mp hi

theorem not_mem_uninstall (st : PluginState) (h : ScopeInv st) :
    hemingwayScopeId ∉ (uninstallHemingwayKeymap st).scopeStack := by
  unfold uninstallHemingwayKeymap
  cases hi : st.keymapInstalled
  · simpa using not_mem_of_flag_false st h hi
  · have := List.count_erase_self hemingwayScopeId st.scopeStack
    have hc : (st.scopeStack.erase hemingwayScopeId).count hemingwayScopeId = 0 := by
      have h2 := h.2
      omega
    simpa using List.count_eq_zero.mp hc

theorem scopeInv_setStatusBarText (st : PluginState) (h : ScopeInv st) :
    ScopeInv (setStatusBarText st) := by
  unfold ScopeInv at h ⊢
  simpa using h

theorem scopeInv_applyKeymapOps (ops : List Bool) (st : PluginState) (h : ScopeInv st) :
    ScopeInv (applyKeymapOps ops st) := by
  induction ops generalizing st with
  | nil => exact h
  | cons op ops ih =>
      unfold applyKeymapOps
      cases op
      · exact ih _ (scopeInv_uninstall st h)
      · exact ih _ (scopeInv_install st h)

theorem updateStatus_of_active (q : Bool) (st : PluginState) (hView : st.viewActive = true) :
    updateStatus q st =
      maybeNotice q
        (if (setStatusBarText st).settings.enabled then
          setupView (installHemingwayKeymap (setStatusBarText st))
         else restoreView (uninstallHemingwayKeymap (setStatusBarText st))) := by
  unfold updateStatus
  rw [hView]
  rfl

theorem updateStatus_of_inactive (q : Bool) (st : PluginState) (hView : st.viewActive = false) :
    updateStatus q st = restoreView (uninstallHemingwayKeymap st) := by
  unfold updateStatus
  rw [hView]
  rfl

theorem setupView_viewHasClass_of_active (st : PluginState) (hv : st.viewActive = true) :
    (setupView st).viewHasClass = true := by
  unfold setupView
  rw [hv]
  rfl

theorem restoreView_viewHasClass_of_active (st : PluginState) (hv : st.viewActive = true) :
    (restoreView st).viewHasClass = false := by
  unfold restoreView
  rw [hv]
  rfl

/-- Claim C9: `installHemingwayKeymap` and `uninstallHemingwayKeymap` are
idempotent — install when already installed and uninstall when not installed
leave the state (in particular the host scope stack) unchanged — the
`keymapInstalled` flag holds exactly when the plugin's scope is on the stack,
and every sequence of install/uninstall calls preserves the invariant and
never has the scope on the stack more than once. -/
theorem install_uninstall_idempotent_flag_synced (st : PluginState) (ops : List Bool)
    (h : ScopeInv st) :
    (st.keymapInstalled = true → installHemingwayKeymap st = st) ∧
    (st.keymapInstalled = false → uninstallHemingwayKeymap st = st) ∧
    (st.keymapInstalled = true ↔ hemingwayScopeId ∈ st.scopeStack) ∧
    ScopeInv (applyKeymapOps ops st) ∧
    (applyKeymapOps ops st).scopeStack.count hemingwayScopeId ≤ 1 := by
  refine ⟨?_, ?_, h.1, scopeInv_applyKeymapOps ops st h,
    (scopeInv_applyKeymapOps ops st h).2⟩
  · intro hi
    unfold installHemingwayKeymap
    rw [hi]
    rfl
  · intro hi
    unfold uninstallHemingwayKeymap
    rw [hi]
    rfl

/-- Claim C9 witness: a concrete run of `install; install; uninstall` from a
state satisfying the invariant. -/
theorem install_uninstall_idempotent_flag_synced_witness :
    ScopeInv (applyKeymapOps [true, true, false] sampleState) :=
  (install_uninstall_idempotent_flag_synced sampleState [true, true, false]
    (by decide)).2.2.2.1

/-- Claim C2 counterexample: in the `src/main.ts` version the claimed iff
fails.  Starting from the post-`onload` state with a markdown view active
throughout, toggling the mode on (a completed `updateStatus` call) builds and
pushes scope instance 1; toggling it off (another completed call) builds
instance 2 and `popScope`s that never-pushed instance, so the interception
scope the plugin pushed — instance 1 — is still on the host stack although
`settings.enabled` is false. -/
theorem main_updateStatus_stale_scope :
    mEnabledOnce.scopeStack = [1] ∧
    mThenDisabled.settings.enabled = false ∧
    mThenDisabled.viewActive = true ∧
    mThenDisabled.scopeStack = [1] ∧
    mThenDisabled.keyMapScope = 2 := by
  decide

/-- Claim C2 (amended): after every completed call to the status-bar
version's (`src/unnamed/part_001`) `updateStatus` made while a markdown view
is active, the plugin's key-map scope is on the host keymap scope stack iff
`settings.enabled` is true; an enabled update installs the scope and sets up
the view (the `hemingway` class is present) and a disabled update uninstalls
it and restores the view (the class is absent).  (In the `src/main.ts`
version a disabled update pops a freshly rebuilt, never-pushed scope
instance and leaves the previously pushed one on the stack.) -/
theorem updateStatus_scope_iff_enabled (q : Bool) (st : PluginState)
    (hInv : ScopeInv st) (hView : st.viewActive = true) :
    (hemingwayScopeId ∈ (updateStatus q st).scopeStack ↔
      (updateStatus q st).settings.enabled = true) ∧
    ((updateStatus q st).settings.enabled = true →
      (updateStatus q st).viewHasClass = true) ∧
    ((updateStatus q st).settings.enabled = false →
      (updateStatus q st).viewHasClass = false) := by
  have hInv1 : ScopeInv (setStatusBarText st) := scopeInv_setStatusBarText st hInv
  have hv1 : (installHemingwayKeymap (setStatusBarText st)).viewActive = true := by
    simp [hView]
  have hv2 : (uninstallHemingwayKeymap (setStatusBarText st)).viewActive = true := by
    simp [hView]
  rw [updateStatus_of_active q st hView]
  cases hen : st.settings.enabled
  · simp only [setStatusBarText_settings, hen, Bool.false_eq_true, if_false,
      maybeNotice_scopeStack, maybeNotice_settings, maybeNotice_viewHasClass,
      restoreView_scopeStack, restoreView_settings,
      uninstallHemingwayKeymap_settings]
    refine ⟨?_, ?_, ?_⟩
    · simp [hen, not_mem_uninstall _ hInv1]
    · intro hcontra
      simp at hcontra
    · intro _
      exact restoreView_viewHasClass_of_active _ hv2
  · simp only [setStatusBarText_settings, hen, if_true,
      maybeNotice_scopeStack, maybeNotice_settings, maybeNotice_viewHasClass,
      setupView_scopeStack, setupView_settings,
      installHemingwayKeymap_settings]
    refine ⟨?_, ?_, ?_⟩
    · simp [hen, mem_install _ hInv1]
    · intro _
      exact setupView_viewHasClass_of_active _ hv1
    · intro hcontra
      simp at hcontra

/-- Claim C2 witness: a concrete enabled update while a view is active. -/
theorem updateStatus_scope_iff_enabled_witness :
    hemingwayScopeId ∈
      (updateStatus true { sampleState with settings := { DEFAULT_SETTINGS with enabled := true } }).scopeStack :=
  ((updateStatus_scope_iff_enabled true
      { sampleState with settings := { DEFAULT_SETTINGS with enabled := true } }
      (by decide) (by decide)).1).mpr (by decide)

/-- Claim C6: on every tick of the focus-polling interval, if a markdown view
is active and the mode is enabled, the key interception scope ends installed
exactly when the editor has keyboard focus; if the mode is disabled or no
markdown view is active, the tick changes nothing. -/
theorem tick_focus_sync (st : PluginState) (hInv : ScopeInv st) :
    (st.viewActive = true → st.settings.enabled = true →
      (hemingwayScopeId ∈ (tick st).scopeStack ↔ st.editorFocused = true)) ∧
    (st.viewActive = false ∨ st.settings.enabled = false → tick st = st) := by
  constructor
  · intro hv he
    unfold tick
    rw [hv, he]
    cases hf : st.editorFocused
    · simp [not_mem_uninstall st hInv]
    · simp [mem_install st hInv]
  · intro hd
    unfold tick
    rcases hd with hd | hd <;> rw [hd] <;> simp

/-- Claim C6 witness: a tick with an active focused view in enabled mode
installs the scope. -/
theorem tick_focus_sync_witness :
    hemingwayScopeId ∈
      (tick { sampleState with settings := { DEFAULT_SETTINGS with enabled := true } }).scopeStack :=
  ((tick_focus_sync { sampleState with settings := { DEFAULT_SETTINGS with enabled := true } }
      (by decide)).1 (by decide) (by decide)).mpr (by decide)

/-- Claim C7: after every completed `updateStatus` call made while a markdown
view is active, the status-bar label's text equals the configured status-bar
text exactly when both `showStatusBar` and `enabled` are true, and equals the
empty string otherwise. -/
theorem updateStatus_statusBar_text (q : Bool) (st : PluginState)
    (hView : st.viewActive = true) :
    (updateStatus q st).statusBarText =
      (if st.settings.showStatusBar && st.settings.enabled then st.settings.statusBarText
       else "") := by
  rw [updateStatus_of_active q st hView]
  cases hen : st.settings.enabled
  · simp [setStatusBarText, hen]
  · simp [setStatusBarText, hen]

/-- Claim C7 witness: a concrete disabled update leaves an empty label. -/
theorem updateStatus_statusBar_text_witness :
    (updateStatus true sampleState).statusBarText = "" := by
  have h := updateStatus_statusBar_text true sampleState (by decide)
  rw [h]
  rfl

/-- Claim C10: an `updateStatus` call with no active markdown view uninstalls
the key interception scope (it is not on the stack afterwards), leaves the
settings record, the status-bar text and the notices untouched — even when
the call is not quiet and `showToggleNotice` is true. -/
theorem updateStatus_no_view (q : Bool) (st : PluginState)
    (hView : st.viewActive = false) (hInv : ScopeInv st) :
    (updateStatus q st).settings = st.settings ∧
    (updateStatus q st).statusBarText = st.statusBarText ∧
    (updateStatus q st).notices = st.notices ∧
    hemingwayScopeId ∉ (updateStatus q st).scopeStack := by
  rw [updateStatus_of_inactive q st hView]
  refine ⟨by simp, by simp, by simp, ?_⟩
  rw [restoreView_scopeStack]
  exact not_mem_uninstall st hInv

/-- A concrete state with no active markdown view and the keymap installed. -/
def noViewState : PluginState :=
  { sampleState with
    viewActive := false
    keymapInstalled := true
    scopeStack := [7, hemingwayScopeId] }

/-- Claim C10 witness: a loud call (`quiet = false`) with `showToggleNotice`
true and no view shows no notice. -/
theorem updateStatus_no_view_witness :
    (updateStatus false noViewState).notices = [] :=
  (updateStatus_no_view false noViewState (by decide) (by decide)).2.2.1

/-- Claim C5: `setupView` called while a markdown view is active moves the
editor cursor to the document's end position — after the last character of
the last line — for every document of at most 99999999 lines (the literal
the source passes as the line number). -/
theorem setupView_cursor_docEnd (st : PluginState) (hView : st.viewActive = true)
    (hlen : st.docLines.length ≤ 99999999) :
    (setupView st).cursor = docEndPos st.docLines := by
  unfold setupView
  rw [hView]
  show clipPos st.docLines (99999999, 0) = docEndPos st.docLines
  unfold clipPos docEndPos
  rw [if_pos hlen]

/-- Claim C5 witness: a two-line document (line lengths 3 and 5) ends with
the cursor at line 1, column 5. -/
theorem setupView_cursor_docEnd_witness :
    (setupView sampleState).cursor = (1, 5) :=
  setupView_cursor_docEnd sampleState (by decide) (by decide)

/-- Claim C8: `setupView` called while a markdown view is active attaches a
click handler to the view's content element, and every click that handler
handles while a markdown view is active gives keyboard focus back to the
editor. -/
theorem setupView_click_listener_focuses (st su : PluginState)
    (hView : st.viewActive = true) (hu : su.viewActive = true) :
    (setupView st).clickListeners = st.clickListeners + 1 ∧
    (mouseEventListener su).editorFocused = true := by
  constructor
  · unfold setupView
    rw [hView]
    rfl
  · unfold mouseEventListener
    rw [hu]
    rfl

/-- Claim C8 witness: concrete activation attaches the listener and a click
focuses the editor. -/
theorem setupView_click_listener_focuses_witness :
    (setupView sampleState).clickListeners = 1 ∧
    (mouseEventListener { sampleState with editorFocused := false }).editorFocused = true :=
  setupView_click_listener_focuses sampleState
    { sampleState with editorFocused := false } (by decide) (by decide)

/-- Claim C1: for every value of the allow-backspace setting, both versions of
`buildKeyMapScope` bind each of the fourteen fixed void keys to the no-op
handler (which returns `false`) under each of the eleven modifier sets, and
register no ordinary printable-character key — every binding whose key is a
single character is one of the explicit `Meta` chords — so forward typing is
unaffected. -/
theorem buildKeyMapScope_voids_fixed_keys (ab : Bool) :
    (∀ key ∈ voidKeys14, ∀ mods ∈ modifierSets11,
      (mods, key, Handler.nop) ∈ (Main.buildKeyMapScope ab).bindings ∧
      (mods, key, Handler.nop) ∈ (P1.buildKeyMapScope ab).bindings) ∧
    (∀ b ∈ (Main.buildKeyMapScope ab).bindings,
      b.2.2.run = false ∧ (b.2.1.length = 1 → b.1 = [Modifier.Meta] ∧ b.2.1 = "Z")) ∧
    (∀ b ∈ (P1.buildKeyMapScope ab).bindings,
      b.2.2.run = false ∧
        (b.2.1.length = 1 → b.1 = [Modifier.Meta] ∧ (b.2.1 = "Z" ∨ b.2.1 = "A"))) := by
  cases ab <;> decide

/-- Claim C1 witness: `ArrowLeft` with no modifiers is bound in the `main.ts`
scope built with backspace allowed. -/
theorem buildKeyMapScope_voids_fixed_keys_witness :
    ([], "ArrowLeft", Handler.nop) ∈ (Main.buildKeyMapScope true).bindings :=
  (((buildKeyMapScope_voids_fixed_keys true).1 "ArrowLeft" (by decide)) [] (by decide)).1

/-- Claim C3 counterexample: when the allow-backspace setting is true, the
built key interception scope (either version) contains no binding at all for
the `Backspace` key, so `Backspace` is not bound to a no-op handler. -/
theorem backspace_unbound_when_allowed :
    ((P1.buildKeyMapScope true).bindings.all (fun b => b.2.1 != "Backspace")) = true ∧
    ((Main.buildKeyMapScope true).bindings.all (fun b => b.2.1 != "Backspace")) = true := by
  decide

/-- Claim C3 (amended): when the allow-backspace setting is false, both
versions of `buildKeyMapScope` bind `Backspace` to the no-op handler under
each of the eleven registered modifier sets; when it is true, no `Backspace`
binding exists. -/
theorem backspace_nop_when_not_allowed :
    (∀ mods ∈ modifierSets11,
      (mods, "Backspace", Handler.nop) ∈ (P1.buildKeyMapScope false).bindings ∧
      (mods, "Backspace", Handler.nop) ∈ (Main.buildKeyMapScope false).bindings) ∧
    ((P1.buildKeyMapScope true).bindings.all (fun b => b.2.1 != "Backspace")) = true ∧
    ((Main.buildKeyMapScope true).bindings.all (fun b => b.2.1 != "Backspace")) = true := by
  decide

/-- Claim C3 witness: `Ctrl+Backspace` is bound in the part_001 scope built
with backspace not allowed. -/
theorem backspace_nop_when_not_allowed_witness :
    ([Modifier.Ctrl], "Backspace", Handler.nop) ∈ (P1.buildKeyMapScope false).bindings :=
  (backspace_nop_when_not_allowed.1 [Modifier.Ctrl] (by decide)).1

/-- Claim C4 counterexample: the `main.ts` version of `buildKeyMapScope`
registers no binding for the `A` key at all (for either value of
allow-backspace), so the `Meta+A` select-all chord is not among its
bindings. -/
theorem main_no_selectAll_binding :
    ((Main.buildKeyMapScope false).bindings.all (fun b => b.2.1 != "A")) = true ∧
    ((Main.buildKeyMapScope true).bindings.all (fun b => b.2.1 != "A")) = true := by
  decide

/-- Claim C4 (amended): in the `src/unnamed/part_001` version, whenever the
key interception scope is built the select-all chord `Meta+A` is among the
bindings, registered to the no-op handler (which returns `false`); the
`main.ts` version registers no select-all chord. -/
theorem p1_selectAll_nop (ab : Bool) :
    ([Modifier.Meta], "A", Handler.nop) ∈ (P1.buildKeyMapScope ab).bindings ∧
    Handler.nop.run = false := by
  cases ab <;> decide

/-- Claim C4 witness: the select-all chord is present in the part_001 scope
built with backspace not allowed. -/
theorem p1_selectAll_nop_witness :
    ([Modifier.Meta], "A", Handler.nop) ∈ (P1.buildKeyMapScope false).bindings :=
  (p1_selectAll_nop false).1

end HemingwayMode
